import Mathlib

/-!
Shallow embedding of `src/components/KYCWall/BaseKYCWall.js` (ExpensifyApp):
the KYC-wall gating decision engine, its popover anchor calculator, and its
transient state machine, together with the process-wide lifecycle effects.

Conventions: JS numbers used for geometry become `Int`; JS objects that may be
`undefined`/`null` become `Option _`; the side effects performed by a handler
(logging, navigation, invoking the gated continuation) are returned as an
explicit list of `Effect`s alongside the updated component state.
-/

namespace KYCWall

/-- `const POPOVER_MENU_ANCHOR_POSITION_VERTICAL_OFFSET = 2;` (BaseKYCWall.js line 17). -/
def POPOVER_MENU_ANCHOR_POSITION_VERTICAL_OFFSET : Int := 2

/-- `const POPOVER_MENU_ANCHOR_POSITION_HORIZONTAL_OFFSET = 20;` (BaseKYCWall.js line 18). -/
def POPOVER_MENU_ANCHOR_POSITION_HORIZONTAL_OFFSET : Int := 20

/-- Modelled from the spec: `CONST.MODAL.POPOVER_MENU_PADDING` is imported from
`../../CONST`, which is not part of the given sources; the spec fixes the
padding constant at 8 ("using a padding constant of 8"). -/
def POPOVER_MENU_PADDING : Int := 8

/-- Modelled from the spec: `CONST.BANK_ACCOUNT.STATE.OPEN` is imported from
`../../CONST`, which is not part of the given sources; the spec names the
reimbursement-account status enum value `OPEN`. -/
def BANK_ACCOUNT_STATE_OPEN : String := "OPEN"

/-- Modelled from the spec: `CONST.WALLET.TIER_NAME.GOLD` is imported from
`../../CONST`, which is not part of the given sources; the spec names the
wallet tier enum value `GOLD`. -/
def WALLET_TIER_NAME_GOLD : String := "GOLD"

/-- Modelled from the spec: `CONST.PAYMENT_METHODS.BANK_ACCOUNT`, the menu item
tag for the "bank account" remediation choice. -/
def PAYMENT_METHODS_BANK_ACCOUNT : String := "bankAccount"

/-- Modelled from the spec: `CONST.PAYMENT_METHODS.DEBIT_CARD`, the menu item
tag for the "debit card" remediation choice. -/
def PAYMENT_METHODS_DEBIT_CARD : String := "debitCard"

/-- `DOMRect` geometry of a clicked element, as read by
`getClickedTargetLocation` at decision time. -/
structure DomRect where
  top : Int
  left : Int
  width : Int
  height : Int
deriving DecidableEq, Repr

/-- The `{anchorPositionVertical, anchorPositionHorizontal}` pair held in the
component's `anchorPosition` state (BaseKYCWall.js lines 42-45). -/
structure AnchorPosition where
  anchorPositionVertical : Int
  anchorPositionHorizontal : Int
deriving DecidableEq, Repr

/-- `getAnchorPosition` (BaseKYCWall.js lines 51-66): maps the clicked
element's bounding rect and the configured `popoverPlacement` to the popover
anchor position. -/
def getAnchorPosition (popoverPlacement : String) (domRect : DomRect) : AnchorPosition :=
  if popoverPlacement = "bottom" then
    { anchorPositionVertical := domRect.top + (domRect.height - POPOVER_MENU_ANCHOR_POSITION_VERTICAL_OFFSET)
      anchorPositionHorizontal := domRect.left + POPOVER_MENU_ANCHOR_POSITION_HORIZONTAL_OFFSET }
  else
    { anchorPositionVertical := domRect.top - POPOVER_MENU_PADDING
      anchorPositionHorizontal := domRect.left }

/-- A registered payment instrument (an entry of `fundList` or
`bankAccountList`); only its usability matters to the gating decision. -/
structure PaymentInstrument where
  isUsable : Bool
deriving DecidableEq, Repr

/-- Modelled from the spec: `PaymentUtils.hasExpensifyPaymentMethod` is
imported from `../../libs/PaymentUtils`, which is not part of the given
sources. Per the spec it is the externally-defined "has a payable method"
predicate applied to the union of the fund list and the bank account list
("contains at least one usable instrument"), and absent external state is
treated as zero valid instruments. The first argument is already defaulted by
the caller (`fundList || {}`); the second may still be absent. -/
def hasExpensifyPaymentMethod (paymentCardList : List PaymentInstrument)
    (bankAccountList : Option (List PaymentInstrument)) : Bool :=
  (paymentCardList ++ bankAccountList.getD []).any (fun i => i.isUsable)

/-- The external account-state snapshot read synchronously by
`continueAction`: Onyx-supplied `fundList`, `bankAccountList`, `userWallet`
and `reimbursementAccount`, plus the expense-context bit
`ReportUtils.isExpenseReport(iouReport)` (that predicate lives outside the
given sources, so the snapshot carries its boolean result directly, as the
spec's `isExpenseContext`). `reimbursementAccountAchState` models
`lodashGet(reimbursementAccount, 'achData.state', '')` with `none` for a
missing path; `userWalletTierName` models `userWallet.tierName` with `none`
for `undefined`/`null`. -/
structure AccountState where
  isExpenseContext : Bool
  fundList : Option (List PaymentInstrument)
  bankAccountList : Option (List PaymentInstrument)
  userWalletTierName : Option String
  reimbursementAccountAchState : Option String
deriving DecidableEq, Repr

/-- The instantiation configuration of the wall (props of `KYCWall`). -/
structure KYCWallProps where
  shouldListenForResize : Bool
  chatReportID : String
  popoverPlacement : String
  enablePaymentsRoute : String
  addBankAccountRoute : String
  addDebitCardRoute : String
deriving DecidableEq, Repr

/-- An opaque handle to a DOM element (`event.nativeEvent.target`). -/
abbrev ElemRef := Nat

/-- The component's transient state: `shouldShowAddPaymentMenu` (menu
visibility), `anchorPosition`, and `transferBalanceButtonRef` (the last
triggering element, `none` before any trigger). -/
structure MachineState where
  shouldShowAddPaymentMenu : Bool
  anchorPosition : AnchorPosition
  transferBalanceButtonRef : Option ElemRef
deriving DecidableEq, Repr

/-- Initial component state (BaseKYCWall.js lines 38-45). -/
def initialState : MachineState :=
  { shouldShowAddPaymentMenu := false
    anchorPosition := { anchorPositionVertical := 0, anchorPositionHorizontal := 0 }
    transferBalanceButtonRef := none }

/-- Observable side effects emitted by a handler, in order. -/
inductive Effect where
  | logInfo (msg : String)
  | navigate (route : String)
  | continuation (iouPaymentType : String)
deriving DecidableEq, Repr

/-- `userWallet.tierName && userWallet.tierName === CONST.WALLET.TIER_NAME.GOLD`
(BaseKYCWall.js line 148): a falsy tier name (`undefined`/`null`, modelled as
`none`, or the empty string) short-circuits to false. -/
def hasGoldWallet (tierName : Option String) : Bool :=
  match tierName with
  | none => false
  | some t => !(t = "") && t = WALLET_TIER_NAME_GOLD

/-- `continueAction` (BaseKYCWall.js lines 118-160). `eventTarget` is
`event.nativeEvent.target`; `geomOf` is the geometry lookup
`getClickedTargetLocation` at the moment of the call. Returns the updated
component state and the emitted effects. -/
def continueAction (props : KYCWallProps) (acct : AccountState) (s : MachineState)
    (eventTarget : ElemRef) (geomOf : ElemRef → DomRect) (iouPaymentType : String) :
    MachineState × List Effect :=
  if s.shouldShowAddPaymentMenu then
    ({ s with shouldShowAddPaymentMenu := false }, [])
  else
    let s := { s with transferBalanceButtonRef := some eventTarget }
    let isExpenseReport := acct.isExpenseContext
    let paymentCardList := acct.fundList.getD []
    if (isExpenseReport && !(acct.reimbursementAccountAchState.getD "" = BANK_ACCOUNT_STATE_OPEN)) ||
       (!isExpenseReport && !hasExpensifyPaymentMethod paymentCardList acct.bankAccountList) then
      let clickedElementLocation := geomOf eventTarget
      let position := getAnchorPosition props.popoverPlacement clickedElementLocation
      ({ s with anchorPosition := position, shouldShowAddPaymentMenu := true },
        [Effect.logInfo "[KYC Wallet] User does not have valid payment method"])
    else if !isExpenseReport && !hasGoldWallet acct.userWalletTierName then
      (s, [Effect.logInfo "[KYC Wallet] User does not have gold wallet",
           Effect.navigate props.enablePaymentsRoute])
    else
      (s, [Effect.logInfo "[KYC Wallet] User has valid payment method and passed KYC checks or did not need them",
           Effect.continuation iouPaymentType])

/-- `handleItemSelected` (BaseKYCWall.js lines 162-170): hides the menu, then
navigates according to the selected remediation item. -/
def handleItemSelected (props : KYCWallProps) (s : MachineState) (item : String) :
    MachineState × List Effect :=
  let s := { s with shouldShowAddPaymentMenu := false }
  if item = PAYMENT_METHODS_BANK_ACCOUNT then
    (s, [Effect.navigate props.addBankAccountRoute])
  else if item = PAYMENT_METHODS_DEBIT_CARD then
    (s, [Effect.navigate props.addDebitCardRoute])
  else
    (s, [])

/-- `setMenuPosition` (BaseKYCWall.js lines 80-88), the viewport-resize
handler: a no-op when no trigger has stored an element yet, otherwise
recomputes the anchor from the stored element's current geometry. -/
def setMenuPosition (props : KYCWallProps) (s : MachineState)
    (geomOf : ElemRef → DomRect) : MachineState :=
  match s.transferBalanceButtonRef with
  | none => s
  | some r =>
      { s with anchorPosition := getAnchorPosition props.popoverPlacement (geomOf r) }

/-- The menu's `onClose` callback (BaseKYCWall.js line 176): hides the menu. -/
def onClose (s : MachineState) : MachineState :=
  { s with shouldShowAddPaymentMenu := false }

/-- Process-wide shared state touched by the mount/unmount lifecycle:
`PaymentMethods.kycWallRef.current` and the source chat/report identifier
published through `Wallet.setKYCWallSourceChatReportID`, plus whether a
`Dimensions` resize subscription is live. -/
structure GlobalState where
  kycWallRefCurrent : Option Nat
  kycWallSourceChatReportID : Option String
  dimensionsSubscriptionActive : Bool
deriving DecidableEq, Repr

/-- The mount-time body of the `useEffect` (BaseKYCWall.js lines 90-100):
stores the active-wall reference, subscribes to resize events when configured,
and publishes the source chat/report id. `Wallet.setKYCWallSourceChatReportID`
lives outside the given sources; modelled from the spec as publishing the
identifier to process-wide shared state. `self` identifies this wall
instance. -/
def mountEffect (props : KYCWallProps) (self : Nat) (g : GlobalState) : GlobalState :=
  { g with
      kycWallRefCurrent := some self
      dimensionsSubscriptionActive := props.shouldListenForResize
      kycWallSourceChatReportID := some props.chatReportID }

/-- The cleanup returned by the `useEffect` (BaseKYCWall.js lines 101-107):
removes the resize subscription when one was made and nulls the active-wall
reference. -/
def unmountCleanup (props : KYCWallProps) (g : GlobalState) : GlobalState :=
  let g :=
    if props.shouldListenForResize && g.dimensionsSubscriptionActive then
      { g with dimensionsSubscriptionActive := false }
    else g
  { g with kycWallRefCurrent := none }

/-- An event dispatched to the component while mounted; trigger and resize
events carry the geometry lookup current at the moment they are handled. -/
inductive Event where
  | trigger (acct : AccountState) (eventTarget : ElemRef)
      (geomOf : ElemRef → DomRect) (iouPaymentType : String)
  | resize (geomOf : ElemRef → DomRect)
  | menuClose
  | itemSelected (item : String)

/-- The state component of one transition of the machine. -/
def stepState (props : KYCWallProps) (s : MachineState) : Event → MachineState
  | Event.trigger acct eventTarget geomOf iouPaymentType =>
      (continueAction props acct s eventTarget geomOf iouPaymentType).1
  | Event.resize geomOf => setMenuPosition props s geomOf
  | Event.menuClose => onClose s
  | Event.itemSelected item => (handleItemSelected props s item).1

/-- The geometry environment an event carries, when it carries one. -/
def eventGeom : Event → Option (ElemRef → DomRect)
  | Event.trigger _ _ geomOf _ => some geomOf
  | Event.resize geomOf => some geomOf
  | Event.menuClose => none
  | Event.itemSelected _ => none

/-- Auxiliary invariant: a visible menu always has a recorded triggering
element. -/
def RefInv (s : MachineState) : Prop :=
  s.shouldShowAddPaymentMenu = true → ∃ r, s.transferBalanceButtonRef = some r

/-- Freshness of the anchor after an event: if the menu is visible, the anchor
position was computed, via `getAnchorPosition`, from the geometry that the
anchoring event (the most recent one) carried for the recorded trigger
element. -/
def FreshAfter (props : KYCWallProps) (ev : Event) (t : MachineState) : Prop :=
  t.shouldShowAddPaymentMenu = true →
    ∃ r geomOf, t.transferBalanceButtonRef = some r ∧
      eventGeom ev = some geomOf ∧
      t.anchorPosition = getAnchorPosition props.popoverPlacement (geomOf r)

/-! Concrete fixtures used by witnesses and counterexamples. -/

/-- A concrete configuration. -/
def cprops : KYCWallProps :=
  { shouldListenForResize := true
    chatReportID := "chat1"
    popoverPlacement := "bottom"
    enablePaymentsRoute := "enablePaymentsRoute"
    addBankAccountRoute := "addBankAccountRoute"
    addDebitCardRoute := "addDebitCardRoute" }

/-- A concrete element geometry (the spec's scenario rect). -/
def crect : DomRect := { top := 100, left := 50, width := 80, height := 20 }

/-- A concrete geometry environment: every element currently sits at `crect`. -/
def cgeom : ElemRef → DomRect := fun _ => crect

/-- A usable payment instrument. -/
def cInstrument : PaymentInstrument := { isUsable := true }

/-! Helper lemmas. -/

/-- The gold-wallet test succeeds exactly on the literal GOLD tier name. -/
theorem hasGoldWallet_iff (t : Option String) :
    hasGoldWallet t = true ↔ t = some WALLET_TIER_NAME_GOLD := by
  cases t with
  | none => simp [hasGoldWallet]
  | some a =>
      simp only [hasGoldWallet, Bool.and_eq_true, Bool.not_eq_true,
        decide_eq_true_eq, decide_eq_false_iff_not, Option.some.injEq]
      constructor
      · exact fun h => h.2
      · intro h
        refine ⟨?_, h⟩
        rw [h]
        simp [WALLET_TIER_NAME_GOLD]

/-- A non-GOLD (or absent/empty) tier name fails the gold-wallet test. -/
theorem hasGoldWallet_eq_false (t : Option String)
    (h : ¬(t = some WALLET_TIER_NAME_GOLD)) : hasGoldWallet t = false := by
  cases hgw : hasGoldWallet t with
  | false => rfl
  | true => exact absurd ((hasGoldWallet_iff t).mp hgw) h

/-! Claim theorems. -/

/-- C4: invoking the trigger while the menu is open transitions back to IDLE
and stops: no effect is emitted (so the continuation is not invoked and no
navigation is requested), and the result does not depend on the account state
(the eligibility evaluation is not run), for any event and payment type. -/
theorem c4_toggle_dismiss (props : KYCWallProps) (acct : AccountState)
    (s : MachineState) (eventTarget : ElemRef) (geomOf : ElemRef → DomRect)
    (iouPaymentType : String) (h : s.shouldShowAddPaymentMenu = true) :
    continueAction props acct s eventTarget geomOf iouPaymentType =
      ({ s with shouldShowAddPaymentMenu := false }, []) := by
  simp [continueAction, h]

/-- Witness for C4 at a concrete menu-open state. -/
theorem c4_toggle_dismiss_witness :
    ({ initialState with shouldShowAddPaymentMenu := true } : MachineState).shouldShowAddPaymentMenu = true ∧
    continueAction cprops ⟨false, none, none, none, none⟩
        { initialState with shouldShowAddPaymentMenu := true } 0 cgeom "pt" =
      ({ { initialState with shouldShowAddPaymentMenu := true } with
          shouldShowAddPaymentMenu := false }, []) :=
  ⟨rfl, c4_toggle_dismiss cprops ⟨false, none, none, none, none⟩
    { initialState with shouldShowAddPaymentMenu := true } 0 cgeom "pt" rfl⟩

/-- C5: the anchor calculator returns
`{vertical := top + height - 2, horizontal := left + 20}` for placement
"bottom" and `{vertical := top - POPOVER_MENU_PADDING, horizontal := left}`
for every other placement (including "top"); in particular the rect
`{top := 100, left := 50, height := 20, width := 80}` yields `(118, 70)` with
placement "bottom" and `(92, 50)` with placement "top" (padding constant 8). -/
theorem c5_getAnchorPosition_spec (rect : DomRect) (p : String)
    (hp : ¬(p = "bottom")) :
    getAnchorPosition "bottom" rect =
      { anchorPositionVertical := rect.top + rect.height - 2
        anchorPositionHorizontal := rect.left + 20 } ∧
    getAnchorPosition p rect =
      { anchorPositionVertical := rect.top - POPOVER_MENU_PADDING
        anchorPositionHorizontal := rect.left } ∧
    getAnchorPosition "bottom" ⟨100, 50, 80, 20⟩ = ⟨118, 70⟩ ∧
    getAnchorPosition "top" ⟨100, 50, 80, 20⟩ = ⟨92, 50⟩ := by
  refine ⟨?_, ?_, by decide, by decide⟩
  · have h2 : rect.top + (rect.height - POPOVER_MENU_ANCHOR_POSITION_VERTICAL_OFFSET) =
        rect.top + rect.height - 2 := by
      unfold POPOVER_MENU_ANCHOR_POSITION_VERTICAL_OFFSET
      omega
    simp [getAnchorPosition, h2, POPOVER_MENU_ANCHOR_POSITION_HORIZONTAL_OFFSET]
  · simp [getAnchorPosition, hp]

/-- Witness for C5 at placement "top" and a concrete rect. -/
theorem c5_getAnchorPosition_spec_witness :
    ¬(("top" : String) = "bottom") ∧
    (getAnchorPosition "bottom" ⟨1, 2, 3, 4⟩ =
      { anchorPositionVertical := (1 : Int) + 4 - 2
        anchorPositionHorizontal := (2 : Int) + 20 } ∧
    getAnchorPosition "top" ⟨1, 2, 3, 4⟩ =
      { anchorPositionVertical := (1 : Int) - POPOVER_MENU_PADDING
        anchorPositionHorizontal := (2 : Int) } ∧
    getAnchorPosition "bottom" ⟨100, 50, 80, 20⟩ = ⟨118, 70⟩ ∧
    getAnchorPosition "top" ⟨100, 50, 80, 20⟩ = ⟨92, 50⟩) :=
  ⟨by decide, c5_getAnchorPosition_spec ⟨1, 2, 3, 4⟩ "top" (by decide)⟩

/-- C9: selecting a remediation item while the menu is open hides the menu
(state resets to IDLE) and navigates to the bank-account route on the
bank-account item, to the debit-card route on the debit-card item, and
performs no navigation on any other item. -/
theorem c9_handleItemSelected_spec (props : KYCWallProps) (s : MachineState)
    (item : String) (h : s.shouldShowAddPaymentMenu = true) :
    (handleItemSelected props s item).1 =
      { s with shouldShowAddPaymentMenu := false } ∧
    (item = PAYMENT_METHODS_BANK_ACCOUNT →
      (handleItemSelected props s item).2 = [Effect.navigate props.addBankAccountRoute]) ∧
    (item = PAYMENT_METHODS_DEBIT_CARD →
      (handleItemSelected props s item).2 = [Effect.navigate props.addDebitCardRoute]) ∧
    (¬(item = PAYMENT_METHODS_BANK_ACCOUNT) → ¬(item = PAYMENT_METHODS_DEBIT_CARD) →
      (handleItemSelected props s item).2 = []) := by
  unfold handleItemSelected
  refine ⟨?_, ?_, ?_, ?_⟩
  · split
    · rfl
    · split <;> rfl
  · intro hba
    simp [hba]
  · intro hdc
    have : ¬(PAYMENT_METHODS_DEBIT_CARD = PAYMENT_METHODS_BANK_ACCOUNT) := by decide
    simp [hdc, this]
  · intro hba hdc
    simp [hba, hdc]

/-- Witness for C9 at a concrete menu-open state and the "other" item. -/
theorem c9_handleItemSelected_spec_witness :
    ({ initialState with shouldShowAddPaymentMenu := true } : MachineState).shouldShowAddPaymentMenu = true ∧
    ((handleItemSelected cprops { initialState with shouldShowAddPaymentMenu := true } "other").1 =
      { { initialState with shouldShowAddPaymentMenu := true } with
          shouldShowAddPaymentMenu := false } ∧
    (("other" : String) = PAYMENT_METHODS_BANK_ACCOUNT →
      (handleItemSelected cprops { initialState with shouldShowAddPaymentMenu := true } "other").2 =
        [Effect.navigate cprops.addBankAccountRoute]) ∧
    (("other" : String) = PAYMENT_METHODS_DEBIT_CARD →
      (handleItemSelected cprops { initialState with shouldShowAddPaymentMenu := true } "other").2 =
        [Effect.navigate cprops.addDebitCardRoute]) ∧
    (¬(("other" : String) = PAYMENT_METHODS_BANK_ACCOUNT) →
      ¬(("other" : String) = PAYMENT_METHODS_DEBIT_CARD) →
      (handleItemSelected cprops { initialState with shouldShowAddPaymentMenu := true } "other").2 = [])) :=
  ⟨rfl, c9_handleItemSelected_spec cprops
    { initialState with shouldShowAddPaymentMenu := true } "other" rfl⟩

/-- Shared helper: with the menu hidden, a non-expense context, a payable
method on file, and a failing gold-wallet test, `continueAction` takes the
KYC-upgrade branch. -/
theorem continueAction_no_gold (props : KYCWallProps) (acct : AccountState)
    (s : MachineState) (eventTarget : ElemRef) (geomOf : ElemRef → DomRect)
    (iouPaymentType : String)
    (hmenu : s.shouldShowAddPaymentMenu = false)
    (hexp : acct.isExpenseContext = false)
    (hpay : hasExpensifyPaymentMethod (acct.fundList.getD []) acct.bankAccountList = true)
    (hg : hasGoldWallet acct.userWalletTierName = false) :
    continueAction props acct s eventTarget geomOf iouPaymentType =
      ({ s with transferBalanceButtonRef := some eventTarget },
        [Effect.logInfo "[KYC Wallet] User does not have gold wallet",
         Effect.navigate props.enablePaymentsRoute]) := by
  simp [continueAction, hmenu, hexp, hpay, hg]

/-- C6: a trigger in IDLE with a non-expense context, a payable method on
file, and a non-GOLD wallet tier requests navigation to the onboarding
(enable-payments) route exactly once, emits no continuation, does not open the
menu, and leaves the machine in IDLE (only the trigger-element ref is
recorded). -/
theorem c6_needs_kyc_upgrade (props : KYCWallProps) (acct : AccountState)
    (s : MachineState) (eventTarget : ElemRef) (geomOf : ElemRef → DomRect)
    (iouPaymentType : String)
    (hmenu : s.shouldShowAddPaymentMenu = false)
    (hexp : acct.isExpenseContext = false)
    (hpay : hasExpensifyPaymentMethod (acct.fundList.getD []) acct.bankAccountList = true)
    (htier : ¬(acct.userWalletTierName = some WALLET_TIER_NAME_GOLD)) :
    continueAction props acct s eventTarget geomOf iouPaymentType =
      ({ s with transferBalanceButtonRef := some eventTarget },
        [Effect.logInfo "[KYC Wallet] User does not have gold wallet",
         Effect.navigate props.enablePaymentsRoute]) ∧
    ((continueAction props acct s eventTarget geomOf iouPaymentType).2.count
        (Effect.navigate props.enablePaymentsRoute) = 1) ∧
    (continueAction props acct s eventTarget geomOf iouPaymentType).1.shouldShowAddPaymentMenu = false ∧
    (∀ q, ¬(Effect.continuation q ∈
      (continueAction props acct s eventTarget geomOf iouPaymentType).2)) := by
  have hg := hasGoldWallet_eq_false acct.userWalletTierName htier
  have heq := continueAction_no_gold props acct s eventTarget geomOf iouPaymentType
    hmenu hexp hpay hg
  refine ⟨heq, ?_, ?_, ?_⟩
  · rw [heq]
    simp [List.count_cons]
  · rw [heq]
    exact hmenu
  · intro q
    rw [heq]
    simp

/-- Witness for C6 at a concrete account snapshot with one usable instrument
and tier NONE. -/
theorem c6_needs_kyc_upgrade_witness :
    initialState.shouldShowAddPaymentMenu = false ∧
    (⟨false, some [cInstrument], none, some "NONE", none⟩ : AccountState).isExpenseContext = false ∧
    hasExpensifyPaymentMethod
      ((⟨false, some [cInstrument], none, some "NONE", none⟩ : AccountState).fundList.getD [])
      (⟨false, some [cInstrument], none, some "NONE", none⟩ : AccountState).bankAccountList = true ∧
    ¬((⟨false, some [cInstrument], none, some "NONE", none⟩ : AccountState).userWalletTierName =
        some WALLET_TIER_NAME_GOLD) ∧
    (continueAction cprops ⟨false, some [cInstrument], none, some "NONE", none⟩
        initialState 0 cgeom "pt" =
      ({ initialState with transferBalanceButtonRef := some 0 },
        [Effect.logInfo "[KYC Wallet] User does not have gold wallet",
         Effect.navigate cprops.enablePaymentsRoute]) ∧
    ((continueAction cprops ⟨false, some [cInstrument], none, some "NONE", none⟩
        initialState 0 cgeom "pt").2.count (Effect.navigate cprops.enablePaymentsRoute) = 1) ∧
    (continueAction cprops ⟨false, some [cInstrument], none, some "NONE", none⟩
        initialState 0 cgeom "pt").1.shouldShowAddPaymentMenu = false ∧
    (∀ q, ¬(Effect.continuation q ∈
      (continueAction cprops ⟨false, some [cInstrument], none, some "NONE", none⟩
        initialState 0 cgeom "pt").2))) :=
  ⟨rfl, rfl, by decide, by decide,
    c6_needs_kyc_upgrade cprops ⟨false, some [cInstrument], none, some "NONE", none⟩
      initialState 0 cgeom "pt" rfl rfl (by decide) (by decide)⟩

/-- C7: a trigger in IDLE with a non-expense context, a payable method on
file, and a GOLD wallet tier passes: the continuation is invoked exactly once
with the given payment type, no navigation is requested, the menu stays
closed, and the machine stays in IDLE (only the trigger-element ref is
recorded). -/
theorem c7_passed (props : KYCWallProps) (acct : AccountState)
    (s : MachineState) (eventTarget : ElemRef) (geomOf : ElemRef → DomRect)
    (iouPaymentType : String)
    (hmenu : s.shouldShowAddPaymentMenu = false)
    (hexp : acct.isExpenseContext = false)
    (hpay : hasExpensifyPaymentMethod (acct.fundList.getD []) acct.bankAccountList = true)
    (htier : acct.userWalletTierName = some WALLET_TIER_NAME_GOLD) :
    continueAction props acct s eventTarget geomOf iouPaymentType =
      ({ s with transferBalanceButtonRef := some eventTarget },
        [Effect.logInfo "[KYC Wallet] User has valid payment method and passed KYC checks or did not need them",
         Effect.continuation iouPaymentType]) ∧
    ((continueAction props acct s eventTarget geomOf iouPaymentType).2.count
        (Effect.continuation iouPaymentType) = 1) ∧
    (continueAction props acct s eventTarget geomOf iouPaymentType).1.shouldShowAddPaymentMenu = false ∧
    (∀ route, ¬(Effect.navigate route ∈
      (continueAction props acct s eventTarget geomOf iouPaymentType).2)) := by
  have hg : hasGoldWallet acct.userWalletTierName = true := (hasGoldWallet_iff _).mpr htier
  have heq : continueAction props acct s eventTarget geomOf iouPaymentType =
      ({ s with transferBalanceButtonRef := some eventTarget },
        [Effect.logInfo "[KYC Wallet] User has valid payment method and passed KYC checks or did not need them",
         Effect.continuation iouPaymentType]) := by
    simp [continueAction, hmenu, hexp, hpay, hg]
  refine ⟨heq, ?_, ?_, ?_⟩
  · rw [heq]
    simp [List.count_cons]
  · rw [heq]
    exact hmenu
  · intro route
    rw [heq]
    simp

/-- Witness for C7 at a concrete account snapshot with one usable instrument
and tier GOLD. -/
theorem c7_passed_witness :
    initialState.shouldShowAddPaymentMenu = false ∧
    (⟨false, some [cInstrument], none, some "GOLD", none⟩ : AccountState).isExpenseContext = false ∧
    hasExpensifyPaymentMethod
      ((⟨false, some [cInstrument], none, some "GOLD", none⟩ : AccountState).fundList.getD [])
      (⟨false, some [cInstrument], none, some "GOLD", none⟩ : AccountState).bankAccountList = true ∧
    (⟨false, some [cInstrument], none, some "GOLD", none⟩ : AccountState).userWalletTierName =
      some WALLET_TIER_NAME_GOLD ∧
    (continueAction cprops ⟨false, some [cInstrument], none, some "GOLD", none⟩
        initialState 0 cgeom "pt" =
      ({ initialState with transferBalanceButtonRef := some 0 },
        [Effect.logInfo "[KYC Wallet] User has valid payment method and passed KYC checks or did not need them",
         Effect.continuation "pt"]) ∧
    ((continueAction cprops ⟨false, some [cInstrument], none, some "GOLD", none⟩
        initialState 0 cgeom "pt").2.count (Effect.continuation "pt") = 1) ∧
    (continueAction cprops ⟨false, some [cInstrument], none, some "GOLD", none⟩
        initialState 0 cgeom "pt").1.shouldShowAddPaymentMenu = false ∧
    (∀ route, ¬(Effect.navigate route ∈
      (continueAction cprops ⟨false, some [cInstrument], none, some "GOLD", none⟩
        initialState 0 cgeom "pt").2))) :=
  ⟨rfl, rfl, by decide, rfl,
    c7_passed cprops ⟨false, some [cInstrument], none, some "GOLD", none⟩
      initialState 0 cgeom "pt" rfl rfl (by decide) rfl⟩

/-- C10: with a usable payment instrument present and a non-expense context, a
missing (`none`) or empty-string wallet tier name behaves exactly like a
non-GOLD tier: the machine navigates to the onboarding route without faulting,
does not pass (no continuation), and does not open the menu. -/
theorem c10_falsy_tier (props : KYCWallProps) (acct : AccountState)
    (s : MachineState) (eventTarget : ElemRef) (geomOf : ElemRef → DomRect)
    (iouPaymentType : String)
    (hmenu : s.shouldShowAddPaymentMenu = false)
    (hexp : acct.isExpenseContext = false)
    (hpay : hasExpensifyPaymentMethod (acct.fundList.getD []) acct.bankAccountList = true)
    (htier : acct.userWalletTierName = none ∨ acct.userWalletTierName = some "") :
    continueAction props acct s eventTarget geomOf iouPaymentType =
      ({ s with transferBalanceButtonRef := some eventTarget },
        [Effect.logInfo "[KYC Wallet] User does not have gold wallet",
         Effect.navigate props.enablePaymentsRoute]) ∧
    (continueAction props acct s eventTarget geomOf iouPaymentType).1.shouldShowAddPaymentMenu = false ∧
    (∀ q, ¬(Effect.continuation q ∈
      (continueAction props acct s eventTarget geomOf iouPaymentType).2)) := by
  have hg : hasGoldWallet acct.userWalletTierName = false := by
    rcases htier with h1 | h1 <;> rw [h1] <;> simp [hasGoldWallet]
  have h := continueAction_no_gold props acct s eventTarget geomOf iouPaymentType
    hmenu hexp hpay hg
  exact ⟨h, by rw [h]; exact hmenu, fun q => by rw [h]; simp⟩

/-- Witness for C10 at a concrete snapshot with an absent tier name. -/
theorem c10_falsy_tier_witness :
    initialState.shouldShowAddPaymentMenu = false ∧
    (⟨false, some [cInstrument], none, none, none⟩ : AccountState).isExpenseContext = false ∧
    hasExpensifyPaymentMethod
      ((⟨false, some [cInstrument], none, none, none⟩ : AccountState).fundList.getD [])
      (⟨false, some [cInstrument], none, none, none⟩ : AccountState).bankAccountList = true ∧
    ((⟨false, some [cInstrument], none, none, none⟩ : AccountState).userWalletTierName = none ∨
      (⟨false, some [cInstrument], none, none, none⟩ : AccountState).userWalletTierName = some "") ∧
    (continueAction cprops ⟨false, some [cInstrument], none, none, none⟩
        initialState 0 cgeom "pt" =
      ({ initialState with transferBalanceButtonRef := some 0 },
        [Effect.logInfo "[KYC Wallet] User does not have gold wallet",
         Effect.navigate cprops.enablePaymentsRoute]) ∧
    (continueAction cprops ⟨false, some [cInstrument], none, none, none⟩
        initialState 0 cgeom "pt").1.shouldShowAddPaymentMenu = false ∧
    (∀ q, ¬(Effect.continuation q ∈
      (continueAction cprops ⟨false, some [cInstrument], none, none, none⟩
        initialState 0 cgeom "pt").2))) :=
  ⟨rfl, rfl, by decide, Or.inl rfl,
    c10_falsy_tier cprops ⟨false, some [cInstrument], none, none, none⟩
      initialState 0 cgeom "pt" rfl rfl (by decide) (Or.inl rfl)⟩

/-- C1 counterexample: in IDLE with an expense context and a non-OPEN
reimbursement account, a trigger OPENS the remediation popover menu
(`shouldShowAddPaymentMenu` becomes true), refuting the claim that the menu
stays closed on the expense-blocked path. -/
theorem c1_counterexample :
    initialState.shouldShowAddPaymentMenu = false ∧
    (⟨true, some [cInstrument], some [cInstrument], some "GOLD", some "PENDING"⟩ : AccountState).isExpenseContext = true ∧
    ¬((⟨true, some [cInstrument], some [cInstrument], some "GOLD", some "PENDING"⟩ : AccountState).reimbursementAccountAchState.getD "" = BANK_ACCOUNT_STATE_OPEN) ∧
    (continueAction cprops ⟨true, some [cInstrument], some [cInstrument], some "GOLD", some "PENDING"⟩
        initialState 0 cgeom "pt").1.shouldShowAddPaymentMenu = true :=
  ⟨rfl, rfl, by decide, by decide⟩

/-- C1 (amended): a trigger in IDLE with an expense context and a non-OPEN
reimbursement account blocks with logging only in the sense that no navigation
is requested and the continuation is not invoked, regardless of the fund and
bank lists — but it opens the remediation popover menu, anchored at the
trigger geometry, rather than leaving it closed. -/
theorem c1_expense_blocked_amended (props : KYCWallProps) (acct : AccountState)
    (s : MachineState) (eventTarget : ElemRef) (geomOf : ElemRef → DomRect)
    (iouPaymentType : String)
    (hmenu : s.shouldShowAddPaymentMenu = false)
    (hexp : acct.isExpenseContext = true)
    (hreimb : ¬(acct.reimbursementAccountAchState.getD "" = BANK_ACCOUNT_STATE_OPEN)) :
    continueAction props acct s eventTarget geomOf iouPaymentType =
      ({ s with transferBalanceButtonRef := some eventTarget
                anchorPosition := getAnchorPosition props.popoverPlacement (geomOf eventTarget)
                shouldShowAddPaymentMenu := true },
        [Effect.logInfo "[KYC Wallet] User does not have valid payment method"]) ∧
    (∀ route, ¬(Effect.navigate route ∈
      (continueAction props acct s eventTarget geomOf iouPaymentType).2)) ∧
    (∀ q, ¬(Effect.continuation q ∈
      (continueAction props acct s eventTarget geomOf iouPaymentType).2)) := by
  have heq : continueAction props acct s eventTarget geomOf iouPaymentType =
      ({ s with transferBalanceButtonRef := some eventTarget
                anchorPosition := getAnchorPosition props.popoverPlacement (geomOf eventTarget)
                shouldShowAddPaymentMenu := true },
        [Effect.logInfo "[KYC Wallet] User does not have valid payment method"]) := by
    simp [continueAction, hmenu, hexp, hreimb]
  exact ⟨heq, fun route => by rw [heq]; simp, fun q => by rw [heq]; simp⟩

/-- Witness for the amended C1 at a concrete expense-blocked snapshot. -/
theorem c1_expense_blocked_amended_witness :
    initialState.shouldShowAddPaymentMenu = false ∧
    (⟨true, none, none, none, some "PENDING"⟩ : AccountState).isExpenseContext = true ∧
    ¬((⟨true, none, none, none, some "PENDING"⟩ : AccountState).reimbursementAccountAchState.getD "" = BANK_ACCOUNT_STATE_OPEN) ∧
    (continueAction cprops ⟨true, none, none, none, some "PENDING"⟩ initialState 0 cgeom "pt" =
      ({ initialState with transferBalanceButtonRef := some 0
                           anchorPosition := getAnchorPosition cprops.popoverPlacement (cgeom 0)
                           shouldShowAddPaymentMenu := true },
        [Effect.logInfo "[KYC Wallet] User does not have valid payment method"]) ∧
    (∀ route, ¬(Effect.navigate route ∈
      (continueAction cprops ⟨true, none, none, none, some "PENDING"⟩ initialState 0 cgeom "pt").2)) ∧
    (∀ q, ¬(Effect.continuation q ∈
      (continueAction cprops ⟨true, none, none, none, some "PENDING"⟩ initialState 0 cgeom "pt").2))) :=
  ⟨rfl, rfl, by decide,
    c1_expense_blocked_amended cprops ⟨true, none, none, none, some "PENDING"⟩
      initialState 0 cgeom "pt" rfl rfl (by decide)⟩

/-- C2 counterexample: mounting and then unmounting a wall leaves the
published source chat/report identifier in place (`some "chat1"`, not `none`),
while the active-wall reference is nulled — refuting the claim that the
cleanup clears both registrations. -/
theorem c2_counterexample :
    (unmountCleanup cprops (mountEffect cprops 1 ⟨none, none, false⟩)).kycWallRefCurrent = none ∧
    (unmountCleanup cprops (mountEffect cprops 1 ⟨none, none, false⟩)).kycWallSourceChatReportID = some "chat1" ∧
    ¬((unmountCleanup cprops (mountEffect cprops 1 ⟨none, none, false⟩)).kycWallSourceChatReportID = none) := by
  refine ⟨by decide, by decide, by decide⟩

/-- C2 (amended): the unmount cleanup sets the globally reachable active-wall
reference back to null, but it does NOT clear the published source chat/report
identifier — that shared-state entry keeps whatever value it had. -/
theorem c2_cleanup_amended (props : KYCWallProps) (g : GlobalState) :
    (unmountCleanup props g).kycWallRefCurrent = none ∧
    (unmountCleanup props g).kycWallSourceChatReportID = g.kycWallSourceChatReportID := by
  unfold unmountCleanup
  refine ⟨rfl, ?_⟩
  split <;> rfl

/-- C8 counterexample: in IDLE, non-expense context, with `fundList` absent
but a usable bank account on file and a GOLD tier, the trigger does NOT show
the add-payment menu — it passes and invokes the continuation — refuting the
claim that an absent fund list always degrades to the blocked/menu outcome. -/
theorem c8_counterexample :
    (⟨false, none, some [cInstrument], some "GOLD", none⟩ : AccountState).fundList = none ∧
    (continueAction cprops ⟨false, none, some [cInstrument], some "GOLD", none⟩
        initialState 0 cgeom "pt").1.shouldShowAddPaymentMenu = false ∧
    (continueAction cprops ⟨false, none, some [cInstrument], some "GOLD", none⟩
        initialState 0 cgeom "pt").2 =
      [Effect.logInfo "[KYC Wallet] User has valid payment method and passed KYC checks or did not need them",
       Effect.continuation "pt"] :=
  ⟨rfl, by decide, by decide⟩

/-- C8 (amended): in IDLE with a non-expense context, an absent fund list or
bank account list never faults and is treated exactly like an empty list (zero
valid instruments from that list); in particular, when both lists are absent
the evaluation degrades to blocked and the add-payment menu is shown, the same
as for empty lists. -/
theorem c8_absent_lists_amended (props : KYCWallProps) (acct : AccountState)
    (s : MachineState) (eventTarget : ElemRef) (geomOf : ElemRef → DomRect)
    (iouPaymentType : String)
    (hmenu : s.shouldShowAddPaymentMenu = false)
    (hexp : acct.isExpenseContext = false) :
    (acct.fundList = none →
      continueAction props acct s eventTarget geomOf iouPaymentType =
        continueAction props { acct with fundList := some [] } s eventTarget geomOf iouPaymentType) ∧
    (acct.bankAccountList = none →
      continueAction props acct s eventTarget geomOf iouPaymentType =
        continueAction props { acct with bankAccountList := some [] } s eventTarget geomOf iouPaymentType) ∧
    (acct.fundList = none → acct.bankAccountList = none →
      continueAction props acct s eventTarget geomOf iouPaymentType =
        ({ s with transferBalanceButtonRef := some eventTarget
                  anchorPosition := getAnchorPosition props.popoverPlacement (geomOf eventTarget)
                  shouldShowAddPaymentMenu := true },
          [Effect.logInfo "[KYC Wallet] User does not have valid payment method"])) := by
  obtain ⟨e, f, b, t, r⟩ := acct
  refine ⟨?_, ?_, ?_⟩
  · intro hf
    subst hf
    simp [continueAction]
  · intro hb
    subst hb
    simp [continueAction, hasExpensifyPaymentMethod]
  · intro hf hb
    subst hf
    subst hb
    simp_all [continueAction, hasExpensifyPaymentMethod]

/-- Witness for the amended C8: both lists absent at a concrete snapshot. -/
theorem c8_absent_lists_amended_witness :
    initialState.shouldShowAddPaymentMenu = false ∧
    (⟨false, none, none, some "GOLD", none⟩ : AccountState).isExpenseContext = false ∧
    ((⟨false, none, none, some "GOLD", none⟩ : AccountState).fundList = none →
      continueAction cprops ⟨false, none, none, some "GOLD", none⟩ initialState 0 cgeom "pt" =
        continueAction cprops { (⟨false, none, none, some "GOLD", none⟩ : AccountState) with fundList := some [] }
          initialState 0 cgeom "pt") ∧
    ((⟨false, none, none, some "GOLD", none⟩ : AccountState).bankAccountList = none →
      continueAction cprops ⟨false, none, none, some "GOLD", none⟩ initialState 0 cgeom "pt" =
        continueAction cprops { (⟨false, none, none, some "GOLD", none⟩ : AccountState) with bankAccountList := some [] }
          initialState 0 cgeom "pt") ∧
    ((⟨false, none, none, some "GOLD", none⟩ : AccountState).fundList = none →
      (⟨false, none, none, some "GOLD", none⟩ : AccountState).bankAccountList = none →
      continueAction cprops ⟨false, none, none, some "GOLD", none⟩ initialState 0 cgeom "pt" =
        ({ initialState with transferBalanceButtonRef := some 0
                             anchorPosition := getAnchorPosition cprops.popoverPlacement (cgeom 0)
                             shouldShowAddPaymentMenu := true },
          [Effect.logInfo "[KYC Wallet] User does not have valid payment method"])) :=
  ⟨rfl, rfl,
    (c8_absent_lists_amended cprops ⟨false, none, none, some "GOLD", none⟩
      initialState 0 cgeom "pt" rfl rfl).1,
    (c8_absent_lists_amended cprops ⟨false, none, none, some "GOLD", none⟩
      initialState 0 cgeom "pt" rfl rfl).2.1,
    (c8_absent_lists_amended cprops ⟨false, none, none, some "GOLD", none⟩
      initialState 0 cgeom "pt" rfl rfl).2.2⟩

/-- C3: on every transition, if the menu ends up visible then the anchor
position was computed by `getAnchorPosition` from the geometry the anchoring
event (trigger or resize) carried for the recorded trigger element at that
moment; a resize never changes menu visibility, re-anchors from the recorded
element's current geometry whenever one is recorded, and is a no-op before any
trigger; and the auxiliary invariant (a visible menu has a recorded trigger
element) is preserved. -/
theorem c3_anchor_invariant (props : KYCWallProps) (s : MachineState) (ev : Event)
    (hinv : RefInv s) :
    FreshAfter props ev (stepState props s ev) ∧
    (∀ geomOf, (stepState props s (Event.resize geomOf)).shouldShowAddPaymentMenu =
        s.shouldShowAddPaymentMenu) ∧
    (∀ geomOf r, s.transferBalanceButtonRef = some r →
        (stepState props s (Event.resize geomOf)).anchorPosition =
          getAnchorPosition props.popoverPlacement (geomOf r)) ∧
    (∀ geomOf, s.transferBalanceButtonRef = none →
        stepState props s (Event.resize geomOf) = s) ∧
    RefInv (stepState props s ev) := by
  have hresize_menu : ∀ geomOf, (stepState props s (Event.resize geomOf)).shouldShowAddPaymentMenu =
      s.shouldShowAddPaymentMenu := by
    intro g
    cases hr : s.transferBalanceButtonRef <;> simp [stepState, setMenuPosition, hr]
  have hresize_anchor : ∀ geomOf r, s.transferBalanceButtonRef = some r →
      (stepState props s (Event.resize geomOf)).anchorPosition =
        getAnchorPosition props.popoverPlacement (geomOf r) := by
    intro g r hr
    simp [stepState, setMenuPosition, hr]
  have hresize_noop : ∀ geomOf, s.transferBalanceButtonRef = none →
      stepState props s (Event.resize geomOf) = s := by
    intro g hr
    simp [stepState, setMenuPosition, hr]
  have hmain : FreshAfter props ev (stepState props s ev) ∧ RefInv (stepState props s ev) := by
    unfold FreshAfter RefInv
    cases ev with
    | trigger acct eventTarget geomOf iouPaymentType =>
        by_cases hm : s.shouldShowAddPaymentMenu = true
        · have hstep : stepState props s (Event.trigger acct eventTarget geomOf iouPaymentType) =
              { s with shouldShowAddPaymentMenu := false } := by
            simp [stepState, continueAction, hm]
          rw [hstep]
          exact ⟨fun hvis => Bool.noConfusion hvis, fun hvis => Bool.noConfusion hvis⟩
        · have hm' : s.shouldShowAddPaymentMenu = false := by
            cases hb : s.shouldShowAddPaymentMenu
            · rfl
            · exact absurd hb hm
          by_cases hblk : ((acct.isExpenseContext &&
                !(acct.reimbursementAccountAchState.getD "" = BANK_ACCOUNT_STATE_OPEN)) ||
              (!acct.isExpenseContext &&
                !hasExpensifyPaymentMethod (acct.fundList.getD []) acct.bankAccountList)) = true
          · have hstep : stepState props s (Event.trigger acct eventTarget geomOf iouPaymentType) =
                { s with transferBalanceButtonRef := some eventTarget
                         anchorPosition := getAnchorPosition props.popoverPlacement (geomOf eventTarget)
                         shouldShowAddPaymentMenu := true } := by
              simp [stepState, continueAction, hm', hblk]
            rw [hstep]
            exact ⟨fun _ => ⟨eventTarget, geomOf, rfl, rfl, rfl⟩, fun _ => ⟨eventTarget, rfl⟩⟩
          · have hstep : stepState props s (Event.trigger acct eventTarget geomOf iouPaymentType) =
                { s with transferBalanceButtonRef := some eventTarget } := by
              by_cases hgold : (!acct.isExpenseContext && !hasGoldWallet acct.userWalletTierName) = true
              · simp [stepState, continueAction, hm', hblk, hgold]
              · simp [stepState, continueAction, hm', hblk, hgold]
            rw [hstep]
            constructor
            · intro hvis
              exact absurd (hm' ▸ hvis) (by simp)
            · intro hvis
              exact absurd (hm' ▸ hvis) (by simp)
    | resize geomOf =>
        cases hr : s.transferBalanceButtonRef with
        | none =>
            have hstep : stepState props s (Event.resize geomOf) = s := by
              simp [stepState, setMenuPosition, hr]
            rw [hstep]
            refine ⟨?_, hinv⟩
            intro hvis
            rcases hinv hvis with ⟨r, hr2⟩
            rw [hr] at hr2
            cases hr2
        | some r =>
            have hstep : stepState props s (Event.resize geomOf) =
                { s with anchorPosition := getAnchorPosition props.popoverPlacement (geomOf r) } := by
              simp [stepState, setMenuPosition, hr]
            rw [hstep]
            exact ⟨fun _ => ⟨r, geomOf, hr, rfl, rfl⟩, fun _ => ⟨r, hr⟩⟩
    | menuClose =>
        have hstep : stepState props s Event.menuClose =
            { s with shouldShowAddPaymentMenu := false } := rfl
        rw [hstep]
        exact ⟨fun hvis => Bool.noConfusion hvis, fun hvis => Bool.noConfusion hvis⟩
    | itemSelected item =>
        have hstep : stepState props s (Event.itemSelected item) =
            { s with shouldShowAddPaymentMenu := false } := by
          by_cases h1 : item = PAYMENT_METHODS_BANK_ACCOUNT
          · simp [stepState, handleItemSelected, h1]
          · by_cases h2 : item = PAYMENT_METHODS_DEBIT_CARD
            · have hne : ¬(PAYMENT_METHODS_DEBIT_CARD = PAYMENT_METHODS_BANK_ACCOUNT) := by decide
              simp [stepState, handleItemSelected, h1, h2, hne]
            · simp [stepState, handleItemSelected, h1, h2]
        rw [hstep]
        exact ⟨fun hvis => Bool.noConfusion hvis, fun hvis => Bool.noConfusion hvis⟩
  exact ⟨hmain.1, hresize_menu, hresize_anchor, hresize_noop, hmain.2⟩

/-- Witness for C3: a menu-open state with recorded element 3, under a resize
event carrying the current geometry environment. -/
theorem c3_anchor_invariant_witness :
    RefInv ⟨true, ⟨118, 70⟩, some 3⟩ ∧
    (FreshAfter cprops (Event.resize cgeom)
        (stepState cprops ⟨true, ⟨118, 70⟩, some 3⟩ (Event.resize cgeom)) ∧
      (∀ geomOf, (stepState cprops ⟨true, ⟨118, 70⟩, some 3⟩ (Event.resize geomOf)).shouldShowAddPaymentMenu =
          (⟨true, ⟨118, 70⟩, some 3⟩ : MachineState).shouldShowAddPaymentMenu) ∧
      (∀ geomOf r, (⟨true, ⟨118, 70⟩, some 3⟩ : MachineState).transferBalanceButtonRef = some r →
          (stepState cprops ⟨true, ⟨118, 70⟩, some 3⟩ (Event.resize geomOf)).anchorPosition =
            getAnchorPosition cprops.popoverPlacement (geomOf r)) ∧
      (∀ geomOf, (⟨true, ⟨118, 70⟩, some 3⟩ : MachineState).transferBalanceButtonRef = none →
          stepState cprops ⟨true, ⟨118, 70⟩, some 3⟩ (Event.resize geomOf) = ⟨true, ⟨118, 70⟩, some 3⟩) ∧
      RefInv (stepState cprops ⟨true, ⟨118, 70⟩, some 3⟩ (Event.resize cgeom))) :=
  ⟨fun _ => ⟨3, rfl⟩,
    c3_anchor_invariant cprops ⟨true, ⟨118, 70⟩, some 3⟩ (Event.resize cgeom) (fun _ => ⟨3, rfl⟩)⟩

end KYCWall
